import Mathlib

/-!
# AquaMapper backend: `simulateWaterMetrics` (importData.js)

A shallow embedding of the import script's simulation loop.

Modelling conventions
* A JavaScript number is a `JSNum`: an exact rational, `Infinity`, `-Infinity` or `NaN`.
  Arithmetic on finite values is exact (IEEE-754 rounding error, overflow and underflow are not
  modelled) and `-0` is identified with `0`.
* `Math.random()` is an oracle `random : Nat → ℚ`; `random n` is the value returned by the
  `n`-th call (counting from 0).  The loop state carries the number of calls made so far.
* A CSV row is a record of optional strings (`none` is JavaScript `undefined`).
* `new Date(item.timestamp)` is kept as its argument.
-/

namespace AquaMapper

/-! ## JavaScript numbers -/

/-- A JavaScript number: a finite value, `Infinity`, `-Infinity` or `NaN`. -/
inductive JSNum where
  | fin (q : ℚ)
  | posInf
  | negInf
  | nan
deriving DecidableEq

namespace JSNum

/-- JavaScript `a + b`. -/
def add : JSNum → JSNum → JSNum
  | fin a, fin b => fin (a + b)
  | nan, _ => nan
  | _, nan => nan
  | posInf, negInf => nan
  | negInf, posInf => nan
  | posInf, _ => posInf
  | _, posInf => posInf
  | negInf, _ => negInf
  | _, negInf => negInf

/-- JavaScript unary `-a`. -/
def neg : JSNum → JSNum
  | fin a => fin (-a)
  | posInf => negInf
  | negInf => posInf
  | nan => nan

/-- JavaScript `a - b`. -/
def sub (a b : JSNum) : JSNum := add a (neg b)

/-- The sign of an infinite product or quotient: `Infinity` when `pos`, else `-Infinity`. -/
def signedInf (pos : Bool) : JSNum := if pos then posInf else negInf

/-- JavaScript `a * b`. -/
def mul : JSNum → JSNum → JSNum
  | fin a, fin b => fin (a * b)
  | nan, _ => nan
  | _, nan => nan
  | posInf, fin b => if b = 0 then nan else signedInf (decide (0 < b))
  | negInf, fin b => if b = 0 then nan else signedInf (decide (b < 0))
  | fin a, posInf => if a = 0 then nan else signedInf (decide (0 < a))
  | fin a, negInf => if a = 0 then nan else signedInf (decide (a < 0))
  | posInf, posInf => posInf
  | negInf, negInf => posInf
  | posInf, negInf => negInf
  | negInf, posInf => negInf

/-- JavaScript `a / b` (a zero divisor is taken to be `+0`). -/
def div : JSNum → JSNum → JSNum
  | fin a, fin b =>
    if b = 0 then (if a = 0 then nan else signedInf (decide (0 < a))) else fin (a / b)
  | nan, _ => nan
  | _, nan => nan
  | fin _, posInf => fin 0
  | fin _, negInf => fin 0
  | posInf, fin b => signedInf (decide (0 ≤ b))
  | negInf, fin b => signedInf (decide (b < 0))
  | posInf, posInf => nan
  | posInf, negInf => nan
  | negInf, posInf => nan
  | negInf, negInf => nan

instance : Add JSNum := ⟨add⟩
instance : Sub JSNum := ⟨sub⟩
instance : Mul JSNum := ⟨mul⟩
instance : Div JSNum := ⟨div⟩

/-- JavaScript `a > b`. -/
def gt : JSNum → JSNum → Bool
  | fin a, fin b => decide (b < a)
  | nan, _ => false
  | _, nan => false
  | posInf, posInf => false
  | posInf, _ => true
  | negInf, _ => false
  | fin _, posInf => false
  | fin _, negInf => true

/-- JavaScript `a >= b`. -/
def ge : JSNum → JSNum → Bool
  | fin a, fin b => decide (b ≤ a)
  | nan, _ => false
  | _, nan => false
  | posInf, _ => true
  | _, negInf => true
  | negInf, _ => false
  | fin _, posInf => false

/-- JavaScript `Math.min(a, b)`. -/
def min : JSNum → JSNum → JSNum
  | fin a, fin b => fin (Min.min a b)
  | nan, _ => nan
  | _, nan => nan
  | negInf, _ => negInf
  | _, negInf => negInf
  | posInf, b => b
  | a, posInf => a

/-- JavaScript `Math.max(a, b)`. -/
def max : JSNum → JSNum → JSNum
  | fin a, fin b => fin (Max.max a b)
  | nan, _ => nan
  | _, nan => nan
  | posInf, _ => posInf
  | _, posInf => posInf
  | negInf, b => b
  | a, negInf => a

/-- JavaScript `ToBoolean` on a number: `0` and `NaN` are falsy. -/
def toBoolean : JSNum → Bool
  | fin q => decide (q ≠ 0)
  | posInf => true
  | negInf => true
  | nan => false

/-- JavaScript `a || b` on numbers. -/
def or (a b : JSNum) : JSNum := if toBoolean a then a else b

/-- The value of `parseFloat(x.toFixed(2))`.  For `|x| < 10^21`, `toFixed(2)` prints the integer
`n` nearest to `|x| * 100` (the larger one on a tie) as `n / 100` with the sign of `x`; for larger
magnitudes, infinities and `NaN` it prints the number itself. -/
def toFixed2 : JSNum → JSNum
  | fin q =>
    if 10 ^ 21 ≤ |q| then fin q
    else if q < 0 then fin (-((⌊(-q) * 100 + 1 / 2⌋ : ℤ) : ℚ) / 100)
    else fin (((⌊q * 100 + 1 / 2⌋ : ℤ) : ℚ) / 100)
  | posInf => posInf
  | negInf => negInf
  | nan => nan

end JSNum

/-! ## `parseFloat` -/

/-- The code points of `StrWhiteSpaceChar` (white space and line terminators). -/
def isStrWhiteSpaceChar (c : Char) : Bool :=
  [0x9, 0xA, 0xB, 0xC, 0xD, 0x20, 0xA0, 0x1680, 0x2028, 0x2029, 0x202F, 0x205F, 0x3000,
    0xFEFF].contains c.toNat || (0x2000 ≤ c.toNat && c.toNat ≤ 0x200A)

/-- The value of a run of decimal digits. -/
def digitsValue (ds : List Char) : Nat :=
  ds.foldl (fun acc c => 10 * acc + (c.toNat - 48)) 0

/-- The exponent denoted by what follows the mantissa: `e` or `E`, an optional sign and at least
one digit; anything else is not part of the number and counts as exponent 0. -/
def exponentPart : List Char → ℤ
  | [] => 0
  | e :: rest =>
    if e = 'e' ∨ e = 'E' then
      match rest with
      | '-' :: ds =>
        let run := ds.takeWhile Char.isDigit
        if run.isEmpty then 0 else -(digitsValue run : ℤ)
      | '+' :: ds =>
        let run := ds.takeWhile Char.isDigit
        if run.isEmpty then 0 else (digitsValue run : ℤ)
      | ds =>
        let run := ds.takeWhile Char.isDigit
        if run.isEmpty then 0 else (digitsValue run : ℤ)
    else 0

/-- The value of `m * 10 ^ e`. -/
def scale10 (m : ℚ) (e : ℤ) : ℚ :=
  if 0 ≤ e then m * 10 ^ e.toNat else m / 10 ^ (-e).toNat

/-- The longest prefix that is an unsigned decimal literal, as a number: `Infinity`, or digits
with an optional fraction and exponent; `NaN` when there is no such prefix. -/
def parseUnsigned (cs : List Char) : JSNum :=
  if "Infinity".toList.isPrefixOf cs then JSNum.posInf
  else
    let intDigits := cs.takeWhile Char.isDigit
    let afterInt := cs.dropWhile Char.isDigit
    let fracDigits :=
      match afterInt with
      | '.' :: r => r.takeWhile Char.isDigit
      | _ => []
    let afterFrac :=
      match afterInt with
      | '.' :: r => r.dropWhile Char.isDigit
      | _ => afterInt
    if intDigits.isEmpty && fracDigits.isEmpty then JSNum.nan
    else
      JSNum.fin (scale10 ((digitsValue (intDigits ++ fracDigits) : ℚ) / 10 ^ fracDigits.length)
        (exponentPart afterFrac))

/-- JavaScript `parseFloat` on a string: leading white space is skipped, an optional sign is read,
and the longest numeric prefix is converted. -/
def parseFloatString (s : String) : JSNum :=
  match s.toList.dropWhile isStrWhiteSpaceChar with
  | '-' :: r => JSNum.neg (parseUnsigned r)
  | '+' :: r => parseUnsigned r
  | r => parseUnsigned r

/-- JavaScript `ToString` on a CSV field: `undefined` becomes the text `undefined`. -/
def fieldToString : Option String → String
  | some s => s
  | none => "undefined"

/-- JavaScript `parseFloat(field)`. -/
def parseFloat (field : Option String) : JSNum :=
  parseFloatString (fieldToString field)

/-! ## The station table and property lookup -/

/-- The object literal `STATION_COORDINATES`: own properties, each a `[lon, lat]` array. -/
def STATION_COORDINATES : List (String × List JSNum) :=
  [("HYD_SANATHNAGAR_1745_7851", [JSNum.fin 78.5172, JSNum.fin 17.4521]),
   ("HYD_HITEC_CITY_1744_7862", [JSNum.fin 78.6283, JSNum.fin 17.4426]),
   ("HYD_AMEERPET_1744_7845", [JSNum.fin 78.4599, JSNum.fin 17.4396]),
   ("HYD_UPPAL_1739_7856", [JSNum.fin 78.5614, JSNum.fin 17.3916]),
   ("HYD_KUKATPALLY_1748_7840", [JSNum.fin 78.4069, JSNum.fin 17.4851])]

/-- The property names every object literal inherits from `Object.prototype`. -/
def objectPrototypeKeys : List String :=
  ["constructor", "__defineGetter__", "__defineSetter__", "hasOwnProperty",
   "__lookupGetter__", "__lookupSetter__", "isPrototypeOf", "propertyIsEnumerable",
   "toString", "valueOf", "__proto__", "toLocaleString"]

/-- What a property read on `STATION_COORDINATES` can yield. -/
inductive JSValue where
  | undefined
  | array (elems : List JSNum)
  | inherited
deriving DecidableEq

/-- JavaScript `ToBoolean`: only `undefined` is falsy here (arrays, functions and objects are
truthy). -/
def JSValue.toBoolean : JSValue → Bool
  | JSValue.undefined => false
  | JSValue.array _ => true
  | JSValue.inherited => true

/-- The property read `STATION_COORDINATES[stationId]`: an own property if there is one, else the
member of `Object.prototype` of that name, else `undefined`. -/
def stationLookup (stationId : Option String) : JSValue :=
  match STATION_COORDINATES.lookup (fieldToString stationId) with
  | some coords => JSValue.array coords
  | none =>
    if objectPrototypeKeys.contains (fieldToString stationId) then JSValue.inherited
    else JSValue.undefined

/-! ## Rows, readings and the simulation loop -/

/-- One record produced by the CSV reader. -/
structure Row where
  sensor_id : Option String
  latitude : Option String
  longitude : Option String
  rainfall_mm : Option String
  timestamp : Option String
deriving DecidableEq

/-- The `location` sub-document. -/
structure Location where
  type : String
  coordinates : List JSNum
deriving DecidableEq

/-- One element of `formattedData`. -/
structure Reading where
  station_id : Option String
  timestamp : Option String
  water_level_m : JSNum
  rainfall_mm : JSNum
  ph_level : JSNum
  location : Location
deriving DecidableEq

/-- The mutable variables of `simulateWaterMetrics`, with the number of `Math.random()` calls
made so far. -/
structure SimState where
  baseLevel : JSNum
  formattedData : List Reading
  randomCalls : Nat

/-- The state before the loop: `baseLevel = 5.0`, `formattedData = []`. -/
def initialState : SimState :=
  { baseLevel := JSNum.fin 5.0, formattedData := [], randomCalls := 0 }

/-- One iteration of the `for (const item of records)` loop body. -/
def loopBody (random : Nat → ℚ) (s : SimState) (item : Row) : SimState :=
  let stationId := item.sensor_id
  if !(stationLookup stationId).toBoolean then s
  else
    let lat := parseFloat item.latitude
    let lon := parseFloat item.longitude
    let rainfall := JSNum.or (parseFloat item.rainfall_mm) (JSNum.fin 0)
    let declineRate := JSNum.fin 0.005
    let rainInfluence := rainfall * JSNum.fin 0.1
    let newLevel := s.baseLevel + rainInfluence - declineRate
      + (JSNum.fin (random s.randomCalls) * JSNum.fin 0.02 - JSNum.fin 0.01)
    let newLevel := JSNum.max (JSNum.fin 1.0) (JSNum.min (JSNum.fin 10.0) newLevel)
    let basePh := JSNum.fin 7.5
    let phNoise := JSNum.fin (random (s.randomCalls + 1)) * JSNum.fin 0.1 - JSNum.fin 0.05
    let rainPhEffect :=
      if JSNum.gt rainfall (JSNum.fin 5) then (rainfall / JSNum.fin 50) * JSNum.fin (-0.2)
      else JSNum.fin 0
    let ph :=
      JSNum.max (JSNum.fin 6.5) (JSNum.min (JSNum.fin 8.5) (basePh + phNoise + rainPhEffect))
    { baseLevel := newLevel
      formattedData := s.formattedData ++
        [{ station_id := stationId
           timestamp := item.timestamp
           water_level_m := JSNum.toFixed2 newLevel
           rainfall_mm := JSNum.toFixed2 rainfall
           ph_level := JSNum.toFixed2 ph
           location := { type := "Point", coordinates := [lon, lat] } }]
      randomCalls := s.randomCalls + 2 }

/-- The state after the loop has run over `records`. -/
def runLoop (random : Nat → ℚ) (records : List Row) : SimState :=
  records.foldl (loopBody random) initialState

/-- The function `simulateWaterMetrics`: the `formattedData` array it returns. -/
def simulateWaterMetrics (random : Nat → ℚ) (records : List Row) : List Reading :=
  (runLoop random records).formattedData

/-! ## Named parts of the loop body -/

/-- The guard of the loop: a row is processed when `STATION_COORDINATES[stationId]` is truthy,
and skipped by `continue` otherwise. -/
def isAccepted (item : Row) : Bool :=
  (stationLookup item.sensor_id).toBoolean

/-- The rows the loop does not skip, in input order. -/
def acceptedRows (records : List Row) : List Row :=
  records.filter isAccepted

/-- The expression `parseFloat(item.rainfall_mm) || 0`. -/
def rowRainfall (item : Row) : JSNum :=
  JSNum.or (parseFloat item.rainfall_mm) (JSNum.fin 0)

/-- The clamped `newLevel` computed from `baseLevel`, the row's rainfall and the value `rnd`
returned by `Math.random()`. -/
def nextLevel (baseLevel rainfall : JSNum) (rnd : ℚ) : JSNum :=
  JSNum.max (JSNum.fin 1.0) (JSNum.min (JSNum.fin 10.0)
    (baseLevel + rainfall * JSNum.fin 0.1 - JSNum.fin 0.005
      + (JSNum.fin rnd * JSNum.fin 0.02 - JSNum.fin 0.01)))

/-- The clamped `ph` computed from the row's rainfall and the value `rnd` returned by
`Math.random()`. -/
def phValue (rainfall : JSNum) (rnd : ℚ) : JSNum :=
  JSNum.max (JSNum.fin 6.5) (JSNum.min (JSNum.fin 8.5)
    (JSNum.fin 7.5 + (JSNum.fin rnd * JSNum.fin 0.1 - JSNum.fin 0.05)
      + (if JSNum.gt rainfall (JSNum.fin 5) then (rainfall / JSNum.fin 50) * JSNum.fin (-0.2)
         else JSNum.fin 0)))

/-- The object pushed onto `formattedData` for a row, given its clamped level and pH. -/
def makeReading (item : Row) (newLevel ph : JSNum) : Reading :=
  { station_id := item.sensor_id
    timestamp := item.timestamp
    water_level_m := JSNum.toFixed2 newLevel
    rainfall_mm := JSNum.toFixed2 (rowRainfall item)
    ph_level := JSNum.toFixed2 ph
    location :=
      { type := "Point", coordinates := [parseFloat item.longitude, parseFloat item.latitude] } }

/-- The readings pushed for a list of processed rows, when `k` rows have been processed before
them and `baseLevel` is the level carried into the first of them. -/
def readingsFrom (random : Nat → ℚ) : Nat → JSNum → List Row → List Reading
  | _, _, [] => []
  | k, baseLevel, item :: rest =>
    makeReading item (nextLevel baseLevel (rowRainfall item) (random (2 * k)))
        (phValue (rowRainfall item) (random (2 * k + 1)))
      :: readingsFrom random (k + 1) (nextLevel baseLevel (rowRainfall item) (random (2 * k))) rest

/-- The value of `baseLevel` after a list of processed rows. -/
def levelFrom (random : Nat → ℚ) : Nat → JSNum → List Row → JSNum
  | _, baseLevel, [] => baseLevel
  | k, baseLevel, item :: rest =>
    levelFrom random (k + 1) (nextLevel baseLevel (rowRainfall item) (random (2 * k))) rest

/-- The station identifiers of the registry (the keys written in `STATION_COORDINATES`). -/
def registryIds : List String :=
  STATION_COORDINATES.map Prod.fst

/-- Whether the row's `sensor_id` is one of the registry's station identifiers. -/
def isRegistryStation (item : Row) : Bool :=
  match item.sensor_id with
  | some id => registryIds.contains id
  | none => false

/-! ## The specification's formulas -/

/-- The specification's `clamp(x, lo, hi)`. -/
def specClamp (x lo hi : JSNum) : JSNum :=
  JSNum.max lo (JSNum.min hi x)

/-- The specification's level step:
`clamp(previousLevel + 0.1 * rainfall - 0.005 + noise, 1.0, 10.0)`. -/
def specNextLevel (previousLevel rainfall noise : JSNum) : JSNum :=
  specClamp (previousLevel + JSNum.fin 0.1 * rainfall - JSNum.fin 0.005 + noise)
    (JSNum.fin 1.0) (JSNum.fin 10.0)

/-- The specification's recurrence: the levels `L_1, L_2, ...` following `previousLevel` for a
list of `(rainfall_k, noise_k)` pairs. -/
def specLevels : JSNum → List (JSNum × JSNum) → List JSNum
  | _, [] => []
  | previousLevel, (rainfall, noise) :: rest =>
    specNextLevel previousLevel rainfall noise
      :: specLevels (specNextLevel previousLevel rainfall noise) rest

/-- The specification's `rainEffect`: `(rainfall / 50) * -0.2` when `rainfall > 5`, else `0`. -/
def specRainEffect (rainfall : JSNum) : JSNum :=
  if JSNum.gt rainfall (JSNum.fin 5) then (rainfall / JSNum.fin 50) * JSNum.fin (-0.2)
  else JSNum.fin 0

/-- The specification's pH: `round2(clamp(7.5 + noise2 + rainEffect, 6.5, 8.5))`. -/
def specPh (rainfall noise2 : JSNum) : JSNum :=
  JSNum.toFixed2
    (specClamp (JSNum.fin 7.5 + noise2 + specRainEffect rainfall) (JSNum.fin 6.5) (JSNum.fin 8.5))

/-- The level noise of the `k`-th processed row (counting from 0): the first of its two
`Math.random()` draws, scaled to `[-0.01, 0.01)`. -/
def levelNoise (random : Nat → ℚ) (k : Nat) : JSNum :=
  JSNum.fin (random (2 * k)) * JSNum.fin 0.02 - JSNum.fin 0.01

/-- The pH noise of the `k`-th processed row (counting from 0): the second of its two
`Math.random()` draws, scaled to `[-0.05, 0.05)`. -/
def phNoise (random : Nat → ℚ) (k : Nat) : JSNum :=
  JSNum.fin (random (2 * k + 1)) * JSNum.fin 0.1 - JSNum.fin 0.05

/-- The `(rainfall_k, noise_k)` pairs of the processed rows, numbered from `k`. -/
def levelInputs (random : Nat → ℚ) (k : Nat) (rows : List Row) : List (JSNum × JSNum) :=
  (rows.enumFrom k).map (fun p => (rowRainfall p.2, levelNoise random p.1))

/-- The row with the same fields but `rainfall_mm` replaced by the text `0` when the original
`rainfall_mm` is missing or does not parse as a number (`parseFloat` gives `NaN`). -/
def zeroIfUnparsed (item : Row) : Row :=
  if parseFloat item.rainfall_mm = JSNum.nan then { item with rainfall_mm := some "0" } else item

/-! ## Example inputs -/

/-- The oracle under which every `Math.random()` call returns `0.5`, so that both noise terms
are exactly 0. -/
def zeroNoise : Nat → ℚ := fun _ => 1 / 2

/-- A row of station `HYD_AMEERPET_1744_7845` with the registry's coordinates and rainfall 0. -/
def rowDry : Row :=
  { sensor_id := some "HYD_AMEERPET_1744_7845", latitude := some "17.4396",
    longitude := some "78.4599", rainfall_mm := some "0",
    timestamp := some "2024-01-01T00:00:00Z" }

/-- A row of station `HYD_AMEERPET_1744_7845` with the registry's coordinates and rainfall 12. -/
def rowWet : Row :=
  { sensor_id := some "HYD_AMEERPET_1744_7845", latitude := some "17.4396",
    longitude := some "78.4599", rainfall_mm := some "12",
    timestamp := some "2024-01-01T01:00:00Z" }

/-- A row of a registered station whose own coordinate fields are `0`, `0`. -/
def rowOtherCoordinates : Row :=
  { sensor_id := some "HYD_AMEERPET_1744_7845", latitude := some "0", longitude := some "0",
    rainfall_mm := some "0", timestamp := some "2024-01-01T00:00:00Z" }

/-- A row of a registered station whose rainfall field is the text `-3`. -/
def rowNegativeRain : Row :=
  { sensor_id := some "HYD_AMEERPET_1744_7845", latitude := some "17.4396",
    longitude := some "78.4599", rainfall_mm := some "-3",
    timestamp := some "2024-01-01T00:00:00Z" }

/-- A row of a registered station whose rainfall field is the text `-7.456`. -/
def rowVeryNegativeRain : Row :=
  { sensor_id := some "HYD_AMEERPET_1744_7845", latitude := some "17.4396",
    longitude := some "78.4599", rainfall_mm := some "-7.456",
    timestamp := some "2024-01-01T00:00:00Z" }

/-- A row of a registered station whose rainfall field is the text `abc`. -/
def rowBadRain : Row :=
  { sensor_id := some "HYD_AMEERPET_1744_7845", latitude := some "17.4396",
    longitude := some "78.4599", rainfall_mm := some "abc",
    timestamp := some "2024-01-01T00:00:00Z" }

/-- A row whose `sensor_id` is the text `constructor`: not a station of the registry, but the
name of a property every object inherits. -/
def rowConstructor : Row :=
  { sensor_id := some "constructor", latitude := some "17.4396", longitude := some "78.4599",
    rainfall_mm := some "12", timestamp := some "2024-01-01T00:00:00Z" }

/-- A row of the station `UNKNOWN_STATION`, which the registry does not list. -/
def rowUnknown : Row :=
  { sensor_id := some "UNKNOWN_STATION", latitude := some "17.4396", longitude := some "78.4599",
    rainfall_mm := some "12", timestamp := some "2024-01-01T00:00:00Z" }

/-! ## Arithmetic lemmas -/

theorem JSNum.add_def (a b : JSNum) : a + b = JSNum.add a b := rfl
theorem JSNum.sub_def (a b : JSNum) : a - b = JSNum.add a (JSNum.neg b) := rfl
theorem JSNum.mul_def (a b : JSNum) : a * b = JSNum.mul a b := rfl
theorem JSNum.div_def (a b : JSNum) : a / b = JSNum.div a b := rfl

theorem JSNum.or_zero_ne_nan (x : JSNum) : JSNum.or x (JSNum.fin 0) ≠ JSNum.nan := by
  cases x <;> simp [JSNum.or, JSNum.toBoolean]
  split <;> simp

theorem JSNum.or_zero_of_nan : JSNum.or nan (JSNum.fin 0) = JSNum.fin 0 := by
  simp [JSNum.or, JSNum.toBoolean]

theorem JSNum.mul_symm (a b : JSNum) : a * b = b * a := by
  cases a <;> cases b <;> simp [JSNum.mul_def, JSNum.mul, mul_comm]

theorem JSNum.clamp_bounds (lo hi : ℚ) (h : lo ≤ hi) (x : JSNum) (hx : x ≠ JSNum.nan) :
    ∃ q, JSNum.max (JSNum.fin lo) (JSNum.min (JSNum.fin hi) x) = JSNum.fin q
      ∧ lo ≤ q ∧ q ≤ hi := by
  cases x with
  | fin a =>
    exact ⟨Max.max lo (Min.min hi a), by simp [JSNum.max, JSNum.min], le_max_left _ _,
      max_le h (min_le_left _ _)⟩
  | posInf =>
    exact ⟨Max.max lo hi, by simp [JSNum.max, JSNum.min], le_max_left _ _, max_le h le_rfl⟩
  | negInf => exact ⟨lo, by simp [JSNum.max, JSNum.min], le_rfl, h⟩
  | nan => exact absurd rfl hx

theorem JSNum.level_candidate_ne_nan (b r : ℚ) (x : JSNum) (hx : x ≠ JSNum.nan) :
    JSNum.fin b + x * JSNum.fin 0.1 - JSNum.fin 0.005
      + (JSNum.fin r * JSNum.fin 0.02 - JSNum.fin 0.01) ≠ JSNum.nan := by
  cases x with
  | fin a =>
    simp [JSNum.add_def, JSNum.sub_def, JSNum.mul_def, JSNum.add, JSNum.mul, JSNum.neg]
  | posInf =>
    simp [JSNum.add_def, JSNum.sub_def, JSNum.mul_def, JSNum.add, JSNum.mul, JSNum.neg,
      JSNum.signedInf]
    norm_num [JSNum.add]
    simp
  | negInf =>
    simp [JSNum.add_def, JSNum.sub_def, JSNum.mul_def, JSNum.add, JSNum.mul, JSNum.neg,
      JSNum.signedInf]
    norm_num [JSNum.add]
    simp
  | nan => exact absurd rfl hx

/-! ## The loop as a function of the processed rows -/

theorem loopBody_of_skipped (random : Nat → ℚ) (s : SimState) (item : Row)
    (h : isAccepted item = false) : loopBody random s item = s := by
  unfold isAccepted at h
  simp [loopBody, h]

theorem loopBody_of_accepted (random : Nat → ℚ) (s : SimState) (item : Row)
    (h : isAccepted item = true) :
    loopBody random s item =
      { baseLevel := nextLevel s.baseLevel (rowRainfall item) (random s.randomCalls)
        formattedData := s.formattedData ++
          [makeReading item (nextLevel s.baseLevel (rowRainfall item) (random s.randomCalls))
            (phValue (rowRainfall item) (random (s.randomCalls + 1)))]
        randomCalls := s.randomCalls + 2 } := by
  unfold isAccepted at h
  simp [loopBody, h]
  exact ⟨rfl, rfl⟩

theorem foldl_loopBody_filter (random : Nat → ℚ) (records : List Row) (s : SimState) :
    records.foldl (loopBody random) s = (acceptedRows records).foldl (loopBody random) s := by
  induction records generalizing s with
  | nil => rfl
  | cons item rest ih =>
    cases h : isAccepted item
    · simp [acceptedRows, List.filter_cons, h, loopBody_of_skipped random s item h]
      exact ih s
    · simp [acceptedRows, List.filter_cons, h]
      exact ih _

theorem foldl_loopBody_accepted (random : Nat → ℚ) (rows : List Row)
    (hrows : ∀ item ∈ rows, isAccepted item = true) (s : SimState) (k : Nat)
    (hk : s.randomCalls = 2 * k) :
    rows.foldl (loopBody random) s =
      { baseLevel := levelFrom random k s.baseLevel rows
        formattedData := s.formattedData ++ readingsFrom random k s.baseLevel rows
        randomCalls := 2 * (k + rows.length) } := by
  induction rows generalizing s k with
  | nil => cases s; simp_all [levelFrom, readingsFrom]
  | cons item rest ih =>
    have hitem : isAccepted item = true := hrows item (List.mem_cons_self _ _)
    have hrest : ∀ x ∈ rest, isAccepted x = true :=
      fun x hx => hrows x (List.mem_cons_of_mem _ hx)
    rw [List.foldl_cons, loopBody_of_accepted random s item hitem]
    rw [ih hrest _ (k + 1) (by simp [hk]; ring)]
    simp [levelFrom, readingsFrom, hk]
    ring

theorem simulateWaterMetrics_eq (random : Nat → ℚ) (records : List Row) :
    simulateWaterMetrics random records
      = readingsFrom random 0 (JSNum.fin 5.0) (acceptedRows records) := by
  unfold simulateWaterMetrics runLoop
  rw [foldl_loopBody_filter, foldl_loopBody_accepted random (acceptedRows records)
    (fun item h => (List.mem_filter.mp h).2) initialState 0 rfl]
  simp [initialState]

theorem runLoop_baseLevel (random : Nat → ℚ) (records : List Row) :
    (runLoop random records).baseLevel
      = levelFrom random 0 (JSNum.fin 5.0) (acceptedRows records) := by
  unfold runLoop
  rw [foldl_loopBody_filter, foldl_loopBody_accepted random (acceptedRows records)
    (fun item h => (List.mem_filter.mp h).2) initialState 0 rfl]
  simp [initialState]

/-! ## Bounds -/

theorem JSNum.toFixed2_bounds (a b : ℤ) (ha : 0 ≤ a) (hb : b ≤ 1000) (q : ℚ)
    (hlo : (a : ℚ) / 100 ≤ q) (hhi : q ≤ (b : ℚ) / 100) :
    ∃ q', JSNum.toFixed2 (JSNum.fin q) = JSNum.fin q'
      ∧ (a : ℚ) / 100 ≤ q' ∧ q' ≤ (b : ℚ) / 100 := by
  have ha' : (0 : ℚ) ≤ a := by exact_mod_cast ha
  have hb' : (b : ℚ) ≤ 1000 := by exact_mod_cast hb
  have hq0 : 0 ≤ q := le_trans (by positivity) hlo
  have hbig : ¬ (10 : ℚ) ^ 21 ≤ |q| := by
    rw [abs_of_nonneg hq0]
    have : q ≤ 10 := by linarith
    have : (10 : ℚ) < 10 ^ 21 := by norm_num
    linarith
  refine ⟨((⌊q * 100 + 1 / 2⌋ : ℤ) : ℚ) / 100, ?_, ?_, ?_⟩
  · simp [JSNum.toFixed2, hbig, not_lt.mpr hq0]
  · have h1 : a ≤ ⌊q * 100 + 1 / 2⌋ := by
      apply Int.le_floor.mpr
      linarith
    have h2 : (a : ℚ) ≤ (⌊q * 100 + 1 / 2⌋ : ℤ) := by exact_mod_cast h1
    linarith
  · have h1 : ⌊q * 100 + 1 / 2⌋ < b + 1 := by
      apply Int.floor_lt.mpr
      push_cast
      linarith
    have h2 : ⌊q * 100 + 1 / 2⌋ ≤ b := by omega
    have h3 : ((⌊q * 100 + 1 / 2⌋ : ℤ) : ℚ) ≤ b := by exact_mod_cast h2
    linarith

theorem nextLevel_bounds (b : ℚ) (rainfall : JSNum) (hr : rainfall ≠ JSNum.nan) (rnd : ℚ) :
    ∃ q, nextLevel (JSNum.fin b) rainfall rnd = JSNum.fin q ∧ 1 ≤ q ∧ q ≤ 10 := by
  have h := JSNum.clamp_bounds 1.0 10.0 (by norm_num) _
    (JSNum.level_candidate_ne_nan b rnd rainfall hr)
  obtain ⟨q, hq, h1, h2⟩ := h
  exact ⟨q, hq, by norm_num at h1; exact h1, by norm_num at h2; exact h2⟩

theorem JSNum.ph_candidate_ne_nan (r : ℚ) (x : JSNum) :
    JSNum.fin 7.5 + (JSNum.fin r * JSNum.fin 0.1 - JSNum.fin 0.05)
      + (if JSNum.gt x (JSNum.fin 5) then (x / JSNum.fin 50) * JSNum.fin (-0.2)
         else JSNum.fin 0) ≠ JSNum.nan := by
  cases x with
  | fin a =>
    simp only [JSNum.gt]
    split <;> simp [JSNum.add_def, JSNum.sub_def, JSNum.mul_def, JSNum.div_def, JSNum.add,
      JSNum.mul, JSNum.neg, JSNum.div]
  | posInf =>
    simp [JSNum.gt, JSNum.add_def, JSNum.sub_def, JSNum.mul_def, JSNum.div_def, JSNum.add,
      JSNum.mul, JSNum.neg, JSNum.div, JSNum.signedInf]
    norm_num [JSNum.add]
    simp
  | negInf =>
    simp [JSNum.gt, JSNum.add_def, JSNum.sub_def, JSNum.mul_def, JSNum.add,
      JSNum.mul, JSNum.neg]
  | nan =>
    simp [JSNum.gt, JSNum.add_def, JSNum.sub_def, JSNum.mul_def, JSNum.add,
      JSNum.mul, JSNum.neg]

theorem phValue_bounds (rainfall : JSNum) (rnd : ℚ) :
    ∃ q, phValue rainfall rnd = JSNum.fin q ∧ 6.5 ≤ q ∧ q ≤ 8.5 :=
  JSNum.clamp_bounds 6.5 8.5 (by norm_num) _ (JSNum.ph_candidate_ne_nan rnd rainfall)

/-! ## Projections of the readings -/

theorem readingsFrom_bounds (random : Nat → ℚ) (rows : List Row) (k : Nat) (b : ℚ) :
    ∀ r ∈ readingsFrom random k (JSNum.fin b) rows,
      (∃ q, r.water_level_m = JSNum.fin q ∧ 1 ≤ q ∧ q ≤ 10) ∧
      (∃ q, r.ph_level = JSNum.fin q ∧ 6.5 ≤ q ∧ q ≤ 8.5) := by
  induction rows generalizing k b with
  | nil => intro r hr; simp [readingsFrom] at hr
  | cons item rest ih =>
    intro r hr
    obtain ⟨q, hq, h1, h2⟩ :=
      nextLevel_bounds b (rowRainfall item) (JSNum.or_zero_ne_nan _) (random (2 * k))
    simp only [readingsFrom, List.mem_cons] at hr
    rcases hr with hr | hr
    · subst hr
      constructor
      · obtain ⟨q', hq', h1', h2'⟩ := JSNum.toFixed2_bounds 100 1000 (by norm_num) (by norm_num) q
          (by norm_num; exact h1) (by norm_num; exact h2)
        refine ⟨q', ?_, ?_, ?_⟩
        · simp [makeReading, hq, hq']
        · norm_num at h1'; exact h1'
        · norm_num at h2'; exact h2'
      · obtain ⟨p, hp, hp1, hp2⟩ := phValue_bounds (rowRainfall item) (random (2 * k + 1))
        obtain ⟨q', hq', h1', h2'⟩ := JSNum.toFixed2_bounds 650 850 (by norm_num) (by norm_num) p
          (by norm_num at hp1 ⊢; exact hp1) (by norm_num at hp2 ⊢; exact hp2)
        refine ⟨q', ?_, ?_, ?_⟩
        · simp [makeReading, hp, hq']
        · norm_num at h1' ⊢; exact h1'
        · norm_num at h2' ⊢; exact h2'
    · rw [hq] at hr
      exact ih (k + 1) q r hr


theorem nextLevel_eq_spec (random : Nat → ℚ) (k : Nat) (prev rainfall : JSNum) :
    nextLevel prev rainfall (random (2 * k)) = specNextLevel prev rainfall (levelNoise random k) := by
  simp only [nextLevel, specNextLevel, specClamp, levelNoise, JSNum.mul_symm rainfall]

theorem phValue_eq_spec (random : Nat → ℚ) (k : Nat) (rainfall : JSNum) :
    JSNum.toFixed2 (phValue rainfall (random (2 * k + 1))) = specPh rainfall (phNoise random k) := by
  rfl

theorem readingsFrom_levels (random : Nat → ℚ) (rows : List Row) (k : Nat) (prev : JSNum) :
    (readingsFrom random k prev rows).map (fun r => r.water_level_m)
      = (specLevels prev (levelInputs random k rows)).map JSNum.toFixed2 := by
  induction rows generalizing k prev with
  | nil => rfl
  | cons item rest ih =>
    simp only [readingsFrom, levelInputs, List.enumFrom_cons, List.map_cons, specLevels]
    rw [ih (k + 1), nextLevel_eq_spec]
    rfl

theorem levelFrom_eq_spec (random : Nat → ℚ) (rows : List Row) (k : Nat) (prev : JSNum) :
    levelFrom random k prev rows = (specLevels prev (levelInputs random k rows)).getLastD prev := by
  induction rows generalizing k prev with
  | nil => rfl
  | cons item rest ih =>
    simp only [levelFrom, levelInputs, List.enumFrom_cons, List.map_cons, specLevels]
    rw [ih (k + 1), nextLevel_eq_spec]
    simp only [List.getLastD_cons]
    rfl

theorem readingsFrom_ph (random : Nat → ℚ) (rows : List Row) (k : Nat) (prev : JSNum) :
    (readingsFrom random k prev rows).map (fun r => r.ph_level)
      = (rows.enumFrom k).map (fun p => specPh (rowRainfall p.2) (phNoise random p.1)) := by
  induction rows generalizing k prev with
  | nil => rfl
  | cons item rest ih =>
    simp only [readingsFrom, List.enumFrom_cons, List.map_cons]
    rw [ih (k + 1)]
    rfl

theorem readingsFrom_rows (random : Nat → ℚ) (rows : List Row) (k : Nat) (prev : JSNum) :
    (readingsFrom random k prev rows).map
        (fun r => (r.station_id, r.timestamp, r.rainfall_mm, r.location))
      = rows.map (fun item => (item.sensor_id, item.timestamp, JSNum.toFixed2 (rowRainfall item),
          ({ type := "Point",
             coordinates := [parseFloat item.longitude, parseFloat item.latitude] } : Location))) := by
  induction rows generalizing k prev with
  | nil => rfl
  | cons item rest ih =>
    simp only [readingsFrom, List.map_cons]
    rw [ih (k + 1)]
    rfl

theorem getElem?_of_map_eq_map {α β γ : Type} (f : α → γ) (g : β → γ) (l : List α) (l' : List β)
    (h : l.map f = l'.map g) (k : Nat) (a : α) (b : β) (ha : l[k]? = some a)
    (hb : l'[k]? = some b) : f a = g b := by
  have hk := congrArg (fun xs => xs[k]?) h
  simpa [List.getElem?_map, ha, hb] using hk

theorem simulateWaterMetrics_rows (random : Nat → ℚ) (records : List Row) :
    (simulateWaterMetrics random records).map
        (fun r => (r.station_id, r.timestamp, r.rainfall_mm, r.location))
      = (acceptedRows records).map (fun item => (item.sensor_id, item.timestamp,
          JSNum.toFixed2 (rowRainfall item),
          ({ type := "Point",
             coordinates := [parseFloat item.longitude, parseFloat item.latitude] } : Location))) := by
  rw [simulateWaterMetrics_eq, readingsFrom_rows]

theorem lookup_isSome_eq_contains (key : String) (table : List (String × List JSNum)) :
    (table.lookup key).isSome = (table.map Prod.fst).contains key := by
  induction table with
  | nil => rfl
  | cons entry rest ih =>
    obtain ⟨name, coords⟩ := entry
    simp only [List.lookup, List.map_cons, List.contains_cons]
    cases h : key == name <;> simp [ih]

theorem isAccepted_eq (item : Row) :
    isAccepted item
      = (isRegistryStation item || objectPrototypeKeys.contains (fieldToString item.sensor_id)) := by
  obtain ⟨sensor_id, latitude, longitude, rainfall_mm, timestamp⟩ := item
  cases sensor_id with
  | none =>
    rfl
  | some id =>
    have h := lookup_isSome_eq_contains id STATION_COORDINATES
    simp only [isAccepted, stationLookup, isRegistryStation, registryIds, fieldToString]
    rw [← h]
    cases hl : STATION_COORDINATES.lookup id with
    | none =>
      simp only [Option.isSome_none, Bool.false_or]
      by_cases hp : id ∈ objectPrototypeKeys
      · simp [hp, JSValue.toBoolean]
      · simp [hp, JSValue.toBoolean]
    | some coords => simp [JSValue.toBoolean]

theorem simulateWaterMetrics_acceptedRows (random : Nat → ℚ) (records : List Row) :
    simulateWaterMetrics random (acceptedRows records) = simulateWaterMetrics random records := by
  rw [simulateWaterMetrics_eq, simulateWaterMetrics_eq]
  simp [acceptedRows]

/-! ## Rainfall fields that do not parse, or parse to a negative number -/

theorem isAccepted_zeroIfUnparsed (item : Row) :
    isAccepted (zeroIfUnparsed item) = isAccepted item := by
  unfold zeroIfUnparsed
  split <;> rfl

theorem parseFloat_zero_text : parseFloat (some "0") = JSNum.fin 0 := by decide!

theorem rowRainfall_zeroIfUnparsed (item : Row) :
    rowRainfall (zeroIfUnparsed item) = rowRainfall item := by
  unfold zeroIfUnparsed
  split
  · rename_i h
    simp only [rowRainfall, h, parseFloat_zero_text]
    simp [JSNum.or, JSNum.toBoolean]
  · rfl

theorem makeReading_zeroIfUnparsed (item : Row) (level ph : JSNum) :
    makeReading (zeroIfUnparsed item) level ph = makeReading item level ph := by
  have h := rowRainfall_zeroIfUnparsed item
  unfold makeReading
  rw [h]
  unfold zeroIfUnparsed
  split <;> rfl

theorem readingsFrom_zeroIfUnparsed (random : Nat → ℚ) (rows : List Row) (k : Nat)
    (prev : JSNum) :
    readingsFrom random k prev (rows.map zeroIfUnparsed) = readingsFrom random k prev rows := by
  induction rows generalizing k prev with
  | nil => rfl
  | cons item rest ih =>
    simp only [List.map_cons, readingsFrom, rowRainfall_zeroIfUnparsed,
      makeReading_zeroIfUnparsed, ih]

theorem acceptedRows_zeroIfUnparsed (records : List Row) :
    acceptedRows (records.map zeroIfUnparsed) = (acceptedRows records).map zeroIfUnparsed := by
  induction records with
  | nil => rfl
  | cons item rest ih =>
    simp only [acceptedRows, List.map_cons, List.filter_cons, isAccepted_zeroIfUnparsed] at ih ⊢
    cases isAccepted item <;> simp [ih]

theorem toFixed2_rowRainfall (item : Row) :
    JSNum.toFixed2 (rowRainfall item)
      = if parseFloat item.rainfall_mm = JSNum.nan then JSNum.fin 0
        else JSNum.toFixed2 (parseFloat item.rainfall_mm) := by
  unfold rowRainfall
  cases h : parseFloat item.rainfall_mm with
  | fin q =>
    by_cases hq : q = 0
    · simp [JSNum.or, JSNum.toBoolean, hq]
    · simp [JSNum.or, JSNum.toBoolean, hq]
  | posInf => simp [JSNum.or, JSNum.toBoolean]
  | negInf => simp [JSNum.or, JSNum.toBoolean]
  | nan =>
    simp [JSNum.or, JSNum.toBoolean, JSNum.toFixed2]
    norm_num

theorem JSNum.toFixed2_nonneg (q : ℚ) (hq : 0 ≤ q) :
    ∃ q', JSNum.toFixed2 (JSNum.fin q) = JSNum.fin q' ∧ 0 ≤ q' := by
  by_cases hbig : (10 : ℚ) ^ 21 ≤ |q|
  · exact ⟨q, by simp [JSNum.toFixed2, hbig], hq⟩
  · refine ⟨((⌊q * 100 + 1 / 2⌋ : ℤ) : ℚ) / 100, by simp [JSNum.toFixed2, hbig, not_lt.mpr hq], ?_⟩
    have h1 : (0 : ℤ) ≤ ⌊q * 100 + 1 / 2⌋ := Int.floor_nonneg.mpr (by positivity)
    have h2 : (0 : ℚ) ≤ (⌊q * 100 + 1 / 2⌋ : ℤ) := by exact_mod_cast h1
    positivity

theorem toFixed2_rowRainfall_nonneg (item : Row)
    (h : JSNum.gt (JSNum.fin 0) (parseFloat item.rainfall_mm) = false) :
    JSNum.ge (JSNum.toFixed2 (rowRainfall item)) (JSNum.fin 0) = true := by
  unfold rowRainfall
  cases hp : parseFloat item.rainfall_mm with
  | fin q =>
    rw [hp] at h
    have hq : 0 ≤ q := by simpa [JSNum.gt] using h
    by_cases hq0 : q = 0
    · subst hq0
      obtain ⟨q', h1, h2⟩ := JSNum.toFixed2_nonneg 0 le_rfl
      simp [JSNum.or, JSNum.toBoolean, h1, JSNum.ge, h2]
    · obtain ⟨q', h1, h2⟩ := JSNum.toFixed2_nonneg q hq
      simp [JSNum.or, JSNum.toBoolean, hq0, h1, JSNum.ge, h2]
  | posInf => simp [JSNum.or, JSNum.toBoolean, JSNum.toFixed2, JSNum.ge]
  | negInf => rw [hp] at h; simp [JSNum.gt] at h
  | nan =>
    obtain ⟨q', h1, h2⟩ := JSNum.toFixed2_nonneg 0 le_rfl
    simp [JSNum.or, JSNum.toBoolean, h1, JSNum.ge, h2]


/-! ## Which rows are processed -/

/-- The `station_id` values of the output are the `sensor_id` values of the rows that are either
registry stations or named like a member of `Object.prototype`, in input order. -/
theorem simulateWaterMetrics_station_ids (random : Nat → ℚ) (records : List Row) :
    (simulateWaterMetrics random records).map (fun r => r.station_id)
      = (records.filter (fun item => isRegistryStation item
          || objectPrototypeKeys.contains (fieldToString item.sensor_id))).map
            (fun item => item.sensor_id) := by
  have h := congrArg (List.map (fun t => t.1)) (simulateWaterMetrics_rows random records)
  have hfilter : acceptedRows records = records.filter (fun item => isRegistryStation item
      || objectPrototypeKeys.contains (fieldToString item.sensor_id)) := by
    unfold acceptedRows
    congr 1
    funext item
    exact isAccepted_eq item
  rw [← hfilter]
  simpa [List.map_map] using h

/-- The specification's `UNKNOWN_STATION` example: such a row is skipped by the guard and leaves
the readings of the rows around it unchanged. -/
theorem unknown_station_row_is_skipped :
    isAccepted rowUnknown = false ∧
      simulateWaterMetrics zeroNoise [rowUnknown] = [] ∧
      simulateWaterMetrics zeroNoise [rowDry, rowUnknown, rowWet]
        = simulateWaterMetrics zeroNoise [rowDry, rowWet] := by
  decide!

/-! ## The claims -/

/-- C1: for every list of rows and every sequence of `Math.random()` values (hence every level
noise in `[-0.01, 0.01]`), each reading returned by `simulateWaterMetrics` has a finite
`water_level_m` with `1.0 ≤ water_level_m ≤ 10.0`, after clamping and two-decimal rounding,
whatever the rainfall fields parse to. -/
theorem water_level_within_bounds (random : Nat → ℚ) (records : List Row) :
    ∀ r ∈ simulateWaterMetrics random records,
      ∃ q, r.water_level_m = JSNum.fin q ∧ 1 ≤ q ∧ q ≤ 10 := by
  intro r hr
  rw [simulateWaterMetrics_eq] at hr
  have h5 : (JSNum.fin 5.0) = JSNum.fin 5 := by norm_num
  rw [h5] at hr
  exact (readingsFrom_bounds random _ 0 5 r hr).1

/-- Witness for C1: the first reading of the two-row example has a water level within bounds. -/
theorem water_level_within_bounds_witness :
    makeReading rowDry (JSNum.fin 4.995) (JSNum.fin 7.5)
        ∈ simulateWaterMetrics zeroNoise [rowDry, rowWet] ∧
      ∃ q, (makeReading rowDry (JSNum.fin 4.995) (JSNum.fin 7.5)).water_level_m = JSNum.fin q
        ∧ 1 ≤ q ∧ q ≤ 10 :=
  ⟨by decide!, water_level_within_bounds zeroNoise [rowDry, rowWet] _ (by decide!)⟩

/-- C2: for every list of rows and every sequence of `Math.random()` values (hence every pH noise
in `[-0.05, 0.05]`), each reading returned by `simulateWaterMetrics` has a finite `ph_level` with
`6.5 ≤ ph_level ≤ 8.5`, after clamping and two-decimal rounding, for any parsed rainfall. -/
theorem ph_level_within_bounds (random : Nat → ℚ) (records : List Row) :
    ∀ r ∈ simulateWaterMetrics random records,
      ∃ q, r.ph_level = JSNum.fin q ∧ 6.5 ≤ q ∧ q ≤ 8.5 := by
  intro r hr
  rw [simulateWaterMetrics_eq] at hr
  have h5 : (JSNum.fin 5.0) = JSNum.fin 5 := by norm_num
  rw [h5] at hr
  exact (readingsFrom_bounds random _ 0 5 r hr).2

/-- Witness for C2: the second reading of the two-row example (rainfall 12) has a pH within
bounds. -/
theorem ph_level_within_bounds_witness :
    makeReading rowWet (JSNum.fin 6.19) (JSNum.fin 7.452)
        ∈ simulateWaterMetrics zeroNoise [rowDry, rowWet] ∧
      ∃ q, (makeReading rowWet (JSNum.fin 6.19) (JSNum.fin 7.452)).ph_level = JSNum.fin q
        ∧ 6.5 ≤ q ∧ q ≤ 8.5 :=
  ⟨by decide!, ph_level_within_bounds zeroNoise [rowDry, rowWet] _ (by decide!)⟩

/-- C3, counterexample: a row of the registered station `HYD_AMEERPET_1744_7845` whose own
coordinate fields are `0`, `0` yields a reading whose coordinates are `[0, 0]`, not the pair
`[78.4599, 17.4396]` stored for that station in `STATION_COORDINATES`. -/
theorem coordinates_not_from_registry :
    stationLookup rowOtherCoordinates.sensor_id
        = JSValue.array [JSNum.fin 78.4599, JSNum.fin 17.4396] ∧
      (simulateWaterMetrics zeroNoise [rowOtherCoordinates]).map
          (fun r => r.location.coordinates) = [[JSNum.fin 0, JSNum.fin 0]] ∧
      ¬ ∀ r ∈ simulateWaterMetrics zeroNoise [rowOtherCoordinates],
          JSValue.array r.location.coordinates = stationLookup r.station_id := by
  decide!

/-- C3, amended: for every processed row whose `sensor_id` is a key of `STATION_COORDINATES`, the
reading's `location.coordinates` are `[parseFloat(longitude), parseFloat(latitude)]` of the row
itself, and they are the pair stored for that station exactly when the row's own `longitude` and
`latitude` fields parse to that pair. -/
theorem coordinates_match_registry_iff (random : Nat → ℚ) (records : List Row) (k : Nat)
    (item : Row) (r : Reading) (coords : List JSNum)
    (hitem : (acceptedRows records)[k]? = some item)
    (hr : (simulateWaterMetrics random records)[k]? = some r)
    (hreg : STATION_COORDINATES.lookup (fieldToString item.sensor_id) = some coords) :
    r.station_id = item.sensor_id ∧
      r.location.coordinates = [parseFloat item.longitude, parseFloat item.latitude] ∧
      (JSValue.array r.location.coordinates = stationLookup r.station_id
        ↔ [parseFloat item.longitude, parseFloat item.latitude] = coords) := by
  have h := getElem?_of_map_eq_map _ _ _ _ (simulateWaterMetrics_rows random records) k r item
    hr hitem
  have hloc := congrArg (fun t => t.2.2.2.coordinates) h
  have hid := congrArg (fun t => t.1) h
  simp only at hloc hid
  refine ⟨hid, hloc, ?_⟩
  rw [hloc, hid]
  simp [stationLookup, hreg]

/-- Witness for C3 (amended): the row `rowDry` carries the registry's own coordinates for
`HYD_AMEERPET_1744_7845` and its reading gets exactly the registry pair, whereas the reading of
`rowOtherCoordinates`, a row of the same station with coordinate fields `0`, `0`, gets `[0, 0]`. -/
theorem coordinates_match_registry_iff_witness :
    ((makeReading rowDry (JSNum.fin 4.995) (JSNum.fin 7.5)).station_id = rowDry.sensor_id ∧
      (makeReading rowDry (JSNum.fin 4.995) (JSNum.fin 7.5)).location.coordinates
        = [parseFloat rowDry.longitude, parseFloat rowDry.latitude] ∧
      (JSValue.array (makeReading rowDry (JSNum.fin 4.995) (JSNum.fin 7.5)).location.coordinates
          = stationLookup (makeReading rowDry (JSNum.fin 4.995) (JSNum.fin 7.5)).station_id
        ↔ [parseFloat rowDry.longitude, parseFloat rowDry.latitude]
          = [JSNum.fin 78.4599, JSNum.fin 17.4396])) ∧
      [parseFloat rowDry.longitude, parseFloat rowDry.latitude]
        = [JSNum.fin 78.4599, JSNum.fin 17.4396] ∧
      (makeReading rowOtherCoordinates (JSNum.fin 4.995) (JSNum.fin 7.5)).location.coordinates
        = [parseFloat rowOtherCoordinates.longitude, parseFloat rowOtherCoordinates.latitude] ∧
      [parseFloat rowOtherCoordinates.longitude, parseFloat rowOtherCoordinates.latitude]
        = [JSNum.fin 0, JSNum.fin 0] :=
  ⟨coordinates_match_registry_iff zeroNoise [rowDry] 0 rowDry _ _ (by decide) (by decide!)
      (by decide!),
    by decide!,
    (coordinates_match_registry_iff zeroNoise [rowOtherCoordinates] 0 rowOtherCoordinates
      (makeReading rowOtherCoordinates (JSNum.fin 4.995) (JSNum.fin 7.5))
      [JSNum.fin 78.4599, JSNum.fin 17.4396] (by decide) (by decide!) (by decide!)).2.1,
    by decide!⟩

/-- C4, counterexample: with zero noise, the two `HYD_AMEERPET_1744_7845` rows with rainfall 0
then 12 leave `baseLevel` at 4.995 and then at 6.19 (4.995 + 1.2 - 0.005), not at 6.195. -/
theorem example_levels_not_6195 :
    ¬ ((runLoop zeroNoise [rowDry]).baseLevel = JSNum.fin 4.995 ∧
        (runLoop zeroNoise [rowDry, rowWet]).baseLevel = JSNum.fin 6.195) := by
  decide!

/-- C4, amended: for every list of rows and every noise sequence, the unrounded levels follow the
recurrence `L_0 = 5.0`, `L_k = clamp(L_(k-1) + 0.1 * rainfall_k - 0.005 + noise_k, 1.0, 10.0)`
over the processed rows in input order, whatever their stations: `baseLevel` after the loop is the
last `L_k`, and the `k`-th reading's `water_level_m` is `L_k` rounded to two decimals.  With zero
noise, two `HYD_AMEERPET_1744_7845` rows with rainfall 0 then 12 give levels 4.995 then 6.19. -/
theorem water_levels_follow_recurrence :
    (∀ (random : Nat → ℚ) (records : List Row),
      (runLoop random records).baseLevel
          = (specLevels (JSNum.fin 5.0) (levelInputs random 0 (acceptedRows records))).getLastD
              (JSNum.fin 5.0) ∧
        (simulateWaterMetrics random records).map (fun r => r.water_level_m)
          = (specLevels (JSNum.fin 5.0) (levelInputs random 0 (acceptedRows records))).map
              JSNum.toFixed2) ∧
      levelNoise zeroNoise 0 = JSNum.fin 0 ∧ levelNoise zeroNoise 1 = JSNum.fin 0 ∧
      (runLoop zeroNoise [rowDry]).baseLevel = JSNum.fin 4.995 ∧
      (runLoop zeroNoise [rowDry, rowWet]).baseLevel = JSNum.fin 6.19 ∧
      (simulateWaterMetrics zeroNoise [rowDry, rowWet]).map (fun r => r.water_level_m)
        = [JSNum.fin 5, JSNum.fin 6.19] := by
  refine ⟨fun random records => ⟨?_, ?_⟩, by decide!, by decide!, by decide!, by decide!,
    by decide!⟩
  · rw [runLoop_baseLevel, levelFrom_eq_spec]
  · rw [simulateWaterMetrics_eq, readingsFrom_levels]

/-- C5, failing input: a row whose `sensor_id` is `constructor` is not a station of the registry,
yet the guard `!STATION_COORDINATES[stationId]` lets it through (the lookup finds the inherited
`Object.prototype.constructor`), so a reading with `station_id = "constructor"` is returned. -/
theorem prototype_key_row_is_processed :
    isRegistryStation rowConstructor = false ∧
      stationLookup rowConstructor.sensor_id = JSValue.inherited ∧
      (simulateWaterMetrics zeroNoise [rowConstructor]).map (fun r => r.station_id)
        = [some "constructor"] ∧
      ([rowConstructor].filter isRegistryStation).map (fun item => item.sensor_id) = [] := by
  decide!

/-- C6, failing input: the row with `sensor_id = "constructor"` belongs to no registered station,
yet it advances `baseLevel`: the registered row after it gets level 6.19, whereas with that row
removed the same registered row gets level 5.00. -/
theorem prototype_key_row_advances_state :
    [rowConstructor, rowDry].filter isRegistryStation = [rowDry] ∧
      (simulateWaterMetrics zeroNoise [rowConstructor, rowDry]).map (fun r => r.water_level_m)
        = [JSNum.fin 6.2, JSNum.fin 6.19] ∧
      (simulateWaterMetrics zeroNoise ([rowConstructor, rowDry].filter isRegistryStation)).map
          (fun r => r.water_level_m) = [JSNum.fin 5] ∧
      simulateWaterMetrics zeroNoise [rowConstructor, rowDry]
        ≠ simulateWaterMetrics zeroNoise ([rowConstructor, rowDry].filter isRegistryStation) := by
  decide!

/-- C7: no row makes `simulateWaterMetrics` fail (it is a total function), and a processed row
whose `rainfall_mm` is missing or does not parse as a number (`parseFloat` gives `NaN`, as for
`abc`) still yields a reading: replacing every such field by the text `0` changes nothing in the
output (level and pH are computed as for rainfall 0), the output has one reading per processed
row, and such a row's `rainfall_mm` is 0. -/
theorem unparsed_rainfall_treated_as_zero :
    (∀ (random : Nat → ℚ) (records : List Row),
      simulateWaterMetrics random (records.map zeroIfUnparsed)
          = simulateWaterMetrics random records ∧
        (simulateWaterMetrics random records).length = (acceptedRows records).length ∧
        (simulateWaterMetrics random records).map (fun r => r.rainfall_mm)
          = (acceptedRows records).map (fun item =>
              if parseFloat item.rainfall_mm = JSNum.nan then JSNum.fin 0
              else JSNum.toFixed2 (parseFloat item.rainfall_mm))) ∧
      parseFloat (some "abc") = JSNum.nan ∧ parseFloat none = JSNum.nan ∧
      zeroIfUnparsed rowBadRain = rowDry ∧
      simulateWaterMetrics zeroNoise [rowBadRain] = simulateWaterMetrics zeroNoise [rowDry] := by
  refine ⟨fun random records => ⟨?_, ?_, ?_⟩, by decide, by decide, by decide, by decide!⟩
  · rw [simulateWaterMetrics_eq, simulateWaterMetrics_eq, acceptedRows_zeroIfUnparsed,
      readingsFrom_zeroIfUnparsed]
  · have h := congrArg List.length (simulateWaterMetrics_rows random records)
    simpa using h
  · have h := congrArg (List.map (fun t => t.2.2.1)) (simulateWaterMetrics_rows random records)
    simp only [List.map_map] at h
    rw [show (fun r : Reading => r.rainfall_mm)
        = (fun t => t.2.2.1) ∘ (fun r : Reading =>
            (r.station_id, r.timestamp, r.rainfall_mm, r.location)) from rfl, h]
    apply List.map_congr_left
    intro item _
    exact toFixed2_rowRainfall item

/-- C8, counterexample: a processed row whose `rainfall_mm` field is the text `-3` yields a
reading with `rainfall_mm = -3`, which is not `>= 0`. -/
theorem negative_rainfall_is_kept :
    (simulateWaterMetrics zeroNoise [rowNegativeRain]).map (fun r => r.rainfall_mm)
        = [JSNum.fin (-3)] ∧
      ¬ ∀ r ∈ simulateWaterMetrics zeroNoise [rowNegativeRain],
          JSNum.ge r.rainfall_mm (JSNum.fin 0) = true := by
  decide!

/-- C8, amended: for every list of rows, the reading of a processed row has `rainfall_mm` equal to
the two-decimal rounding of `parseFloat(rainfall_mm) || 0`: it is 0 when the field is missing or
not numeric and the rounding of the parsed number otherwise.  Hence `rainfall_mm >= 0` whenever
the field does not parse to a negative number, and a field that parses to a negative number is
passed through, rounded to two decimals, not replaced. -/
theorem rainfall_nonneg_unless_parsed_negative (random : Nat → ℚ) (records : List Row) (k : Nat)
    (item : Row) (r : Reading)
    (hitem : (acceptedRows records)[k]? = some item)
    (hr : (simulateWaterMetrics random records)[k]? = some r) :
    r.rainfall_mm
        = (if parseFloat item.rainfall_mm = JSNum.nan then JSNum.fin 0
           else JSNum.toFixed2 (parseFloat item.rainfall_mm)) ∧
      (JSNum.gt (JSNum.fin 0) (parseFloat item.rainfall_mm) = false →
        JSNum.ge r.rainfall_mm (JSNum.fin 0) = true) ∧
      (JSNum.gt (JSNum.fin 0) (parseFloat item.rainfall_mm) = true →
        r.rainfall_mm = JSNum.toFixed2 (parseFloat item.rainfall_mm)) := by
  have h := getElem?_of_map_eq_map _ _ _ _ (simulateWaterMetrics_rows random records) k r item
    hr hitem
  have hrain := congrArg (fun t => t.2.2.1) h
  simp only at hrain
  have heq := toFixed2_rowRainfall item
  refine ⟨hrain.trans heq, ?_, ?_⟩
  · intro hparse
    rw [hrain]
    exact toFixed2_rowRainfall_nonneg item hparse
  · intro hparse
    rw [hrain, heq]
    have hne : parseFloat item.rainfall_mm ≠ JSNum.nan := by
      intro hnan
      rw [hnan] at hparse
      simp [JSNum.gt] at hparse
    simp [hne]

/-- Witness for C8 (amended): the row `rowBadRain`, whose rainfall text is `abc`, gets
`rainfall_mm = 0 >= 0`; the row whose rainfall text is `-7.456` gets the rounded negative value
`-7.46`. -/
theorem rainfall_nonneg_unless_parsed_negative_witness :
    JSNum.ge (makeReading rowBadRain (JSNum.fin 4.995) (JSNum.fin 7.5)).rainfall_mm
        (JSNum.fin 0) = true ∧
      (makeReading rowVeryNegativeRain (JSNum.fin 4.2494) (JSNum.fin 7.5)).rainfall_mm
        = JSNum.toFixed2 (parseFloat rowVeryNegativeRain.rainfall_mm) ∧
      JSNum.toFixed2 (parseFloat rowVeryNegativeRain.rainfall_mm) = JSNum.fin (-7.46) :=
  ⟨(rainfall_nonneg_unless_parsed_negative zeroNoise [rowBadRain] 0 rowBadRain _ (by decide)
      (by decide!)).2.1 (by decide),
    (rainfall_nonneg_unless_parsed_negative zeroNoise [rowVeryNegativeRain] 0
      rowVeryNegativeRain _ (by decide) (by decide!)).2.2 (by decide!),
    by decide!⟩

/-- C9: for every processed row, the reading's `location` has type exactly `Point` and a
two-element `coordinates` list whose first element is the row's parsed `longitude` field and whose
second element is the row's parsed `latitude` field. -/
theorem location_is_point_lon_lat :
    (∀ (random : Nat → ℚ) (records : List Row),
      (simulateWaterMetrics random records).map (fun r => r.location)
        = (acceptedRows records).map (fun item =>
            ({ type := "Point",
               coordinates := [parseFloat item.longitude, parseFloat item.latitude] } : Location))) ∧
      (simulateWaterMetrics zeroNoise [rowDry]).map (fun r => r.location.coordinates)
        = [[JSNum.fin 78.4599, JSNum.fin 17.4396]] ∧
      parseFloat rowDry.longitude = JSNum.fin 78.4599 ∧
      parseFloat rowDry.latitude = JSNum.fin 17.4396 := by
  refine ⟨fun random records => ?_, by decide!, by decide!, by decide!⟩
  have h := congrArg (List.map (fun t => t.2.2.2)) (simulateWaterMetrics_rows random records)
  simpa [List.map_map] using h

/-- C10: the pH of a reading depends on its own row's rainfall and its own noise value only: the
`k`-th reading's `ph_level` is `round2(clamp(7.5 + noise2 + rainEffect, 6.5, 8.5))` with
`rainEffect = (rainfall / 50) * -0.2` when `rainfall > 5` and 0 otherwise, where `rainfall` is the
`k`-th processed row's rainfall and `noise2` its pH noise; no level and no earlier row enters.
Rainfall exactly 5 gives `rainEffect = 0`. -/
theorem ph_depends_on_own_row_only :
    (∀ (random : Nat → ℚ) (records : List Row),
      (simulateWaterMetrics random records).map (fun r => r.ph_level)
        = (acceptedRows records).enum.map
            (fun p => specPh (rowRainfall p.2) (phNoise random p.1))) ∧
      specRainEffect (JSNum.fin 5) = JSNum.fin 0 ∧
      (∀ rnd : ℚ, phValue (JSNum.fin 5) rnd = phValue (JSNum.fin 0) rnd) := by
  refine ⟨fun random records => ?_, by decide!, fun rnd => ?_⟩
  · rw [simulateWaterMetrics_eq, readingsFrom_ph]
    rfl
  · norm_num [phValue, JSNum.gt]


end AquaMapper
